import Mathlib

/-!
Verification development for the LS8 emulator (`src/python-app/cpu.py`).

The CPU of the emulator is shallowly embedded: Python integers become
`Int` (Python ints are unbounded and can go negative, e.g. `~0 = -1`),
the Python lists `self.ram` (length 256) and `self.reg` (length 8)
become functions `Int → Int` that are only ever accessed through
`pyGet`/`pySet`, which reproduce Python list indexing (a negative index
counts from the end once; an index outside `[-n, n)` raises
`IndexError`).  Each instruction method of `cpu.py` becomes a function
`CPUState → Exec`, where `Exec` records the next state, the lines
printed, process exit (Python `exit()` / `exit(1)`), or an uncaught
Python exception.
-/

namespace LS8

/-- Python list read for a list of length `n` (`xs[i]`): indices in
`[-n, n)` are valid, a negative index counts from the end (so the cell
read is `i % n` for `%` the mathematician's mod); other indices raise
`IndexError`, modelled as `none`. -/
def pyGet (n : Int) (f : Int → Int) (i : Int) : Option Int :=
  if -n ≤ i ∧ i < n then some (f (i % n)) else none

/-- Python list write for a list of length `n` (`xs[i] = v`), with the
same index rule as `pyGet`. -/
def pySet (n : Int) (f : Int → Int) (i : Int) (v : Int) : Option (Int → Int) :=
  if -n ≤ i ∧ i < n then some (Function.update f (i % n) v) else none

/-- Python `range(a, b)` as a list of integers. -/
def pyRange (a b : Int) : List Int :=
  (List.range (b - a).toNat).map (fun k => a + (k : Int))

/-- Python `1 << n` for a nonnegative (natural) shift count is `2 ^ n`. -/
def pyShl1 (n : Nat) : Int := 2 ^ n

/-- cpu.py `set_nth_bit(b, n) = b | 1 << n`. -/
def set_nth_bit (b : Int) (n : Nat) : Int := Int.lor b (pyShl1 n)

/-- cpu.py `unset_nth_bit(b, n) = b & ~(1 << n)`; Python `~x = -(x+1)`,
which is `Int.lnot`. -/
def unset_nth_bit (b : Int) (n : Nat) : Int := Int.land b (Int.lnot (pyShl1 n))

/-- Machine state of `CPU` (cpu.py `__init__`): `pc`, `ir`, `fl`,
`ram` (256 cells), `reg` (8 cells, with R5 = IM, R6 = IS, R7 = SP), and
the `interrupts_enabled` flag.  The constant attributes `imr = 5`,
`isr = 6`, `spr = 7` and the IVT are inlined where used. -/
structure CPUState where
  pc : Int
  ir : Int
  fl : Int
  ram : Int → Int
  reg : Int → Int
  interrupts_enabled : Bool

/-- One `print(...)` call observable on standard output.  `chars cs`
is a printed string given by its character codes (as built by `PRA` and
`PRM` via `chr`), `num n` a printed integer (`PRN`), `text m` a literal
diagnostic message, and `trace` the single line printed by `_trace`. -/
inductive OutEvent where
  | chars (cs : List Int)
  | num (n : Int)
  | text (msg : String)
  | trace
  deriving DecidableEq

/-- Result of running a piece of the interpreter: `next s out` returns
control with new state `s` having printed `out`; `exited s code out`
models `exit()` / `exit(1)` (Python `exit()` with no argument raises
`SystemExit(None)`, terminating the host process with status 0, and
`exit(1)` with status 1) with `s` the machine state at that moment;
`err out` is an uncaught Python exception (e.g. `IndexError`). -/
inductive Exec where
  | next (s : CPUState) (out : List OutEvent)
  | exited (s : CPUState) (code : Int) (out : List OutEvent)
  | err (out : List OutEvent)

/-- State observable after an `Exec` (none if an exception escaped). -/
def stateOf : Exec → Option CPUState
  | .next s _ => some s
  | .exited s _ _ => some s
  | .err _ => none

/-- Output of an `Exec`. -/
def outOf : Exec → List OutEvent
  | .next _ o => o
  | .exited _ _ o => o
  | .err o => o

/-- Process exit status carried by an `Exec`, when it exited. -/
def exitCodeOf : Exec → Option Int
  | .exited _ c _ => some c
  | _ => none

/-- Register `r` observed after an `Exec`. -/
def regAfter (e : Exec) (r : Int) : Option Int :=
  (stateOf e).map fun t => t.reg r

/-- `pc` observed after an `Exec`. -/
def pcAfter (e : Exec) : Option Int :=
  (stateOf e).map fun t => t.pc

/-- `fl` observed after an `Exec`. -/
def flAfter (e : Exec) : Option Int :=
  (stateOf e).map fun t => t.fl

/-- cpu.py `_operand_a`: `self.ram[self.pc + 1]`. -/
def operandA (s : CPUState) : Option Int := pyGet 256 s.ram (s.pc + 1)

/-- cpu.py `_operand_b`: `self.ram[self.pc + 2]`. -/
def operandB (s : CPUState) : Option Int := pyGet 256 s.ram (s.pc + 2)

/-- cpu.py `_trace`: prints one line built from `ram[pc]`, `ram[pc+1]`,
`ram[pc+2]` and the eight registers.  The three RAM reads go through
Python list indexing and can raise `IndexError`; the register reads use
the constant indices `0..7` and never fault.  The printed line itself is
modelled abstractly as `OutEvent.trace`. -/
def traceLine (s : CPUState) : Option OutEvent :=
  match pyGet 256 s.ram s.pc, pyGet 256 s.ram (s.pc + 1),
        pyGet 256 s.ram (s.pc + 2) with
  | some _, some _, some _ => some .trace
  | _, _, _ => none

/-!
Instruction definitions (cpu.py, section "INSTRUCTION DEFINITIONS").
`self.reg[self.spr]` and the other accesses at the constant reserved
indices 5, 6, 7 are always in range for the 8-element register list
(`pyGet 8 reg 7` reduces to `reg 7`), so they are read and written as
plain applications / `Function.update` at 5, 6, 7.
-/

/-- cpu.py `_NOP`: do nothing. -/
def _NOP (s : CPUState) : Exec := .next s []

/-- cpu.py `_PRA r`: `print(chr(self.reg[r]))`.  Python `chr` raises
`ValueError` unless its argument is in `[0, 0x110000)`. -/
def _PRA (r : Int) (s : CPUState) : Exec :=
  match pyGet 8 s.reg r with
  | some v => if 0 ≤ v ∧ v < 1114112 then .next s [.chars [v]] else .err []
  | none => .err []

/-- cpu.py `_PRM ra rb`: builds the string of
`chr(self.ram[a])` for `a` in `range(reg[ra], reg[rb] + 1)` and prints
it.  Any faulting RAM read or `chr` aborts before anything is printed. -/
def _PRM (ra rb : Int) (s : CPUState) : Exec :=
  match pyGet 8 s.reg ra, pyGet 8 s.reg rb with
  | some va, some vb =>
      match (pyRange va (vb + 1)).mapM (fun a => pyGet 256 s.ram a) with
      | some cs =>
          if cs.all (fun c => decide (0 ≤ c ∧ c < 1114112)) then
            .next s [.chars cs]
          else .err []
      | none => .err []
  | _, _ => .err []

/-- cpu.py `_PRN r`: `print(self.reg[r])`. -/
def _PRN (r : Int) (s : CPUState) : Exec :=
  match pyGet 8 s.reg r with
  | some v => .next s [.num v]
  | none => .err []

/-- cpu.py `_LD ra rb`: `self.reg[ra] = self.ram[self.reg[rb]]`. -/
def _LD (ra rb : Int) (s : CPUState) : Exec :=
  match pyGet 8 s.reg rb with
  | some vb =>
      match pyGet 256 s.ram vb with
      | some m =>
          match pySet 8 s.reg ra m with
          | some reg' => .next { s with reg := reg' } []
          | none => .err []
      | none => .err []
  | none => .err []

/-- cpu.py `_LDI r i`: `self.reg[r] = 0b11111111 & i`. -/
def _LDI (r i : Int) (s : CPUState) : Exec :=
  match pySet 8 s.reg r (Int.land 255 i) with
  | some reg' => .next { s with reg := reg' } []
  | none => .err []

/-- cpu.py `_ST ra rb`: `self.ram[self.reg[ra]] = self.reg[rb]`. -/
def _ST (ra rb : Int) (s : CPUState) : Exec :=
  match pyGet 8 s.reg rb with
  | some vb =>
      match pyGet 8 s.reg ra with
      | some va =>
          match pySet 256 s.ram va vb with
          | some ram' => .next { s with ram := ram' } []
          | none => .err []
      | none => .err []
  | none => .err []

/-- cpu.py `_PUSH(r, value=None)`: decrement SP, wrapping `0x00 → 0xFF`,
then store `value` (if given) or `self.reg[r]` at `ram[SP]`. -/
def _PUSH (r : Option Int) (value : Option Int) (s : CPUState) : Exec :=
  let sp := s.reg 7
  let sp' : Int := if sp = 0 then 255 else sp - 1
  let s1 : CPUState := { s with reg := Function.update s.reg 7 sp' }
  match value with
  | some v =>
      match pySet 256 s1.ram sp' v with
      | some ram' => .next { s1 with ram := ram' } []
      | none => .err []
  | none =>
      match r with
      | some ri =>
          match pyGet 8 s1.reg ri with
          | some v =>
              match pySet 256 s1.ram sp' v with
              | some ram' => .next { s1 with ram := ram' } []
              | none => .err []
          | none => .err []
      | none => .err []

/-- cpu.py `_POP(r=None, ret=True)`: save `sp`, increment SP wrapping
`0xFF → 0x00`, and return `ram[sp]` together with the new state. -/
def _POP_ret (s : CPUState) : Option (Int × CPUState) :=
  let sp := s.reg 7
  let s1 : CPUState :=
    { s with reg := Function.update s.reg 7 (if sp = 255 then 0 else sp + 1) }
  match pyGet 256 s.ram sp with
  | some v => some (v, s1)
  | none => none

/-- cpu.py `_POP(r)` with `ret=False`: pop into `self.reg[r]`. -/
def _POP (r : Int) (s : CPUState) : Exec :=
  match _POP_ret s with
  | some (v, s1) =>
      match pySet 8 s1.reg r v with
      | some reg' => .next { s1 with reg := reg' } []
      | none => .err []
  | none => .err []

/-- cpu.py `_CALL r`: `self.reg[self.spr] -= 1` (no wrap, unlike
`_PUSH`), `self.ram[self.reg[self.spr]] = self.pc + 2`,
`self.pc = self.reg[r]`. -/
def _CALL (r : Int) (s : CPUState) : Exec :=
  let s1 : CPUState := { s with reg := Function.update s.reg 7 (s.reg 7 - 1) }
  match pySet 256 s1.ram (s1.reg 7) (s.pc + 2) with
  | some ram' =>
      match pyGet 8 s1.reg r with
      | some v => .next { s1 with ram := ram', pc := v } []
      | none => .err []
  | none => .err []

/-- cpu.py `_RET`: `self.pc = self.ram[self.reg[self.spr]]`, then
`self.reg[self.spr] += 1` (no wrap, unlike `_POP`). -/
def _RET (s : CPUState) : Exec :=
  match pyGet 256 s.ram (s.reg 7) with
  | some v =>
      .next { s with pc := v, reg := Function.update s.reg 7 (s.reg 7 + 1) } []
  | none => .err []

/-- cpu.py `_INT r`:
`self.reg[self.isr] = self.set_nth_bit(self.reg[r], 1)` — note: the bit
set is the constant 1 and the base value is `reg[r]` itself, not IS. -/
def _INT (r : Int) (s : CPUState) : Exec :=
  match pyGet 8 s.reg r with
  | some v => .next { s with reg := Function.update s.reg 6 (set_nth_bit v 1) } []
  | none => .err []

/-- cpu.py `_IRET`: pop into `reg[6]` down to `reg[0]`, then pop `fl`,
then pop `pc`, then `self.interrupts_enabled = True`. -/
def _IRET (s : CPUState) : Exec :=
  match _POP_ret s with
  | none => .err []
  | some (v6, s1) =>
  match _POP_ret { s1 with reg := Function.update s1.reg 6 v6 } with
  | none => .err []
  | some (v5, s2) =>
  match _POP_ret { s2 with reg := Function.update s2.reg 5 v5 } with
  | none => .err []
  | some (v4, s3) =>
  match _POP_ret { s3 with reg := Function.update s3.reg 4 v4 } with
  | none => .err []
  | some (v3, s4) =>
  match _POP_ret { s4 with reg := Function.update s4.reg 3 v3 } with
  | none => .err []
  | some (v2, s5) =>
  match _POP_ret { s5 with reg := Function.update s5.reg 2 v2 } with
  | none => .err []
  | some (v1, s6) =>
  match _POP_ret { s6 with reg := Function.update s6.reg 1 v1 } with
  | none => .err []
  | some (v0, s7) =>
  match _POP_ret { s7 with reg := Function.update s7.reg 0 v0 } with
  | none => .err []
  | some (vfl, s8) =>
  match _POP_ret { s8 with fl := vfl } with
  | none => .err []
  | some (vpc, s9) =>
      .next { s9 with pc := vpc, interrupts_enabled := true } []

/-- cpu.py `_JMP r`: `self.pc = self.reg[r]`. -/
def _JMP (r : Int) (s : CPUState) : Exec :=
  match pyGet 8 s.reg r with
  | some v => .next { s with pc := v } []
  | none => .err []

/-- cpu.py `_JLT r`: jump if `self.fl & 0b100` is truthy. -/
def _JLT (r : Int) (s : CPUState) : Exec :=
  if Int.land s.fl 4 ≠ 0 then
    match pyGet 8 s.reg r with
    | some v => .next { s with pc := v } []
    | none => .err []
  else .next { s with pc := s.pc + 2 } []

/-- cpu.py `_JGT r`: jump if `self.fl & 0b010` is truthy. -/
def _JGT (r : Int) (s : CPUState) : Exec :=
  if Int.land s.fl 2 ≠ 0 then
    match pyGet 8 s.reg r with
    | some v => .next { s with pc := v } []
    | none => .err []
  else .next { s with pc := s.pc + 2 } []

/-- cpu.py `_JEQ r`: jump if `self.fl & 0b001` is truthy. -/
def _JEQ (r : Int) (s : CPUState) : Exec :=
  if Int.land s.fl 1 ≠ 0 then
    match pyGet 8 s.reg r with
    | some v => .next { s with pc := v } []
    | none => .err []
  else .next { s with pc := s.pc + 2 } []

/-- cpu.py `_JLE r`: jump if `self.fl & 0b101` is truthy. -/
def _JLE (r : Int) (s : CPUState) : Exec :=
  if Int.land s.fl 5 ≠ 0 then
    match pyGet 8 s.reg r with
    | some v => .next { s with pc := v } []
    | none => .err []
  else .next { s with pc := s.pc + 2 } []

/-- cpu.py `_JGE r`: jump if `self.fl & 0b011` is truthy. -/
def _JGE (r : Int) (s : CPUState) : Exec :=
  if Int.land s.fl 3 ≠ 0 then
    match pyGet 8 s.reg r with
    | some v => .next { s with pc := v } []
    | none => .err []
  else .next { s with pc := s.pc + 2 } []

/-- cpu.py `_JNE r`: jump if `self.fl ^ 0b001` is truthy — an XOR, so
the branch is taken whenever `fl ≠ 1`, not whenever bit E is clear. -/
def _JNE (r : Int) (s : CPUState) : Exec :=
  if Int.xor s.fl 1 ≠ 0 then
    match pyGet 8 s.reg r with
    | some v => .next { s with pc := v } []
    | none => .err []
  else .next { s with pc := s.pc + 2 } []

/-!
ALU instruction definitions (cpu.py, section "ALU INSTRUCTION
DEFINITIONS").  In `DIV`/`MOD`, Python `//` is flooring division
(`Int.fdiv`) and `%` is the flooring remainder (`Int.fmod`); `int(...)`
on an int is the identity.
-/

/-- cpu.py `_ALU_ADD`: `reg[ra] = (reg[ra] + reg[rb]) & 0xFF`. -/
def _ALU_ADD (ra rb : Int) (s : CPUState) : Exec :=
  match pyGet 8 s.reg ra, pyGet 8 s.reg rb with
  | some va, some vb =>
      match pySet 8 s.reg ra (Int.land (va + vb) 255) with
      | some reg' => .next { s with reg := reg' } []
      | none => .err []
  | _, _ => .err []

/-- cpu.py `_ALU_ADDi`: `reg[r] = (reg[r] + i) & 0xFF`. -/
def _ALU_ADDi (r i : Int) (s : CPUState) : Exec :=
  match pyGet 8 s.reg r with
  | some v =>
      match pySet 8 s.reg r (Int.land (v + i) 255) with
      | some reg' => .next { s with reg := reg' } []
      | none => .err []
  | none => .err []

/-- cpu.py `_ALU_SUB`: `reg[ra] = (reg[ra] - reg[rb]) & 0xFF`. -/
def _ALU_SUB (ra rb : Int) (s : CPUState) : Exec :=
  match pyGet 8 s.reg ra, pyGet 8 s.reg rb with
  | some va, some vb =>
      match pySet 8 s.reg ra (Int.land (va - vb) 255) with
      | some reg' => .next { s with reg := reg' } []
      | none => .err []
  | _, _ => .err []

/-- cpu.py `_ALU_MUL`: `reg[ra] = (reg[ra] * reg[rb]) & 0xFF`. -/
def _ALU_MUL (ra rb : Int) (s : CPUState) : Exec :=
  match pyGet 8 s.reg ra, pyGet 8 s.reg rb with
  | some va, some vb =>
      match pySet 8 s.reg ra (Int.land (va * vb) 255) with
      | some reg' => .next { s with reg := reg' } []
      | none => .err []
  | _, _ => .err []

/-- cpu.py `_ALU_DIV`: if `reg[rb] == 0`, print "Cannot divide by 0!"
and `exit()` (host exit status 0, no trace); else
`reg[ra] = reg[ra] // reg[rb]`. -/
def _ALU_DIV (ra rb : Int) (s : CPUState) : Exec :=
  match pyGet 8 s.reg rb with
  | some vb =>
      if vb = 0 then .exited s 0 [.text "Cannot divide by 0!"]
      else
        match pyGet 8 s.reg ra with
        | some va =>
            match pySet 8 s.reg ra (Int.fdiv va vb) with
            | some reg' => .next { s with reg := reg' } []
            | none => .err []
        | none => .err []
  | none => .err []

/-- cpu.py `_ALU_MOD`: if `reg[rb] == 0`, print "Cannot divide by 0!"
and `exit()`; else `reg[ra] = int(reg[ra] % reg[rb])`. -/
def _ALU_MOD (ra rb : Int) (s : CPUState) : Exec :=
  match pyGet 8 s.reg rb with
  | some vb =>
      if vb = 0 then .exited s 0 [.text "Cannot divide by 0!"]
      else
        match pyGet 8 s.reg ra with
        | some va =>
            match pySet 8 s.reg ra (Int.fmod va vb) with
            | some reg' => .next { s with reg := reg' } []
            | none => .err []
        | none => .err []
  | none => .err []

/-- cpu.py `_ALU_INC`: `reg[r] = (reg[r] + 1) & 0xFF`. -/
def _ALU_INC (r : Int) (s : CPUState) : Exec :=
  match pyGet 8 s.reg r with
  | some v =>
      match pySet 8 s.reg r (Int.land (v + 1) 255) with
      | some reg' => .next { s with reg := reg' } []
      | none => .err []
  | none => .err []

/-- cpu.py `_ALU_DEC`: `reg[r] = (reg[r] - 1) & 0xFF`. -/
def _ALU_DEC (r : Int) (s : CPUState) : Exec :=
  match pyGet 8 s.reg r with
  | some v =>
      match pySet 8 s.reg r (Int.land (v - 1) 255) with
      | some reg' => .next { s with reg := reg' } []
      | none => .err []
  | none => .err []

/-- cpu.py `_ALU_AND`: `reg[ra] = reg[ra] & reg[rb]`. -/
def _ALU_AND (ra rb : Int) (s : CPUState) : Exec :=
  match pyGet 8 s.reg ra, pyGet 8 s.reg rb with
  | some va, some vb =>
      match pySet 8 s.reg ra (Int.land va vb) with
      | some reg' => .next { s with reg := reg' } []
      | none => .err []
  | _, _ => .err []

/-- cpu.py `_ALU_OR`: `reg[ra] = reg[ra] | reg[rb]`. -/
def _ALU_OR (ra rb : Int) (s : CPUState) : Exec :=
  match pyGet 8 s.reg ra, pyGet 8 s.reg rb with
  | some va, some vb =>
      match pySet 8 s.reg ra (Int.lor va vb) with
      | some reg' => .next { s with reg := reg' } []
      | none => .err []
  | _, _ => .err []

/-- cpu.py `_ALU_XOR`: `reg[ra] = reg[ra] ^ reg[rb]`. -/
def _ALU_XOR (ra rb : Int) (s : CPUState) : Exec :=
  match pyGet 8 s.reg ra, pyGet 8 s.reg rb with
  | some va, some vb =>
      match pySet 8 s.reg ra (Int.xor va vb) with
      | some reg' => .next { s with reg := reg' } []
      | none => .err []
  | _, _ => .err []

/-- cpu.py `_ALU_NOT`: `reg[r] = ~reg[r]`, i.e. `-(reg[r] + 1)` — no
`& 0xFF` mask, unlike the other ALU writes. -/
def _ALU_NOT (r : Int) (s : CPUState) : Exec :=
  match pyGet 8 s.reg r with
  | some v =>
      match pySet 8 s.reg r (Int.lnot v) with
      | some reg' => .next { s with reg := reg' } []
      | none => .err []
  | none => .err []

/-- cpu.py `_ALU_SHL`: `reg[ra] = (reg[ra] << reg[rb]) & 0xFF`.  Python
`<<` raises `ValueError` on a negative shift count; on a nonnegative
count it is multiplication by `2 ^ count`. -/
def _ALU_SHL (ra rb : Int) (s : CPUState) : Exec :=
  match pyGet 8 s.reg ra, pyGet 8 s.reg rb with
  | some va, some vb =>
      if 0 ≤ vb then
        match pySet 8 s.reg ra (Int.land (va * 2 ^ vb.toNat) 255) with
        | some reg' => .next { s with reg := reg' } []
        | none => .err []
      else .err []
  | _, _ => .err []

/-- cpu.py `_ALU_SHR`: `reg[ra] = reg[ra] >> reg[rb]` (no mask).
Python `>>` raises `ValueError` on a negative count; on a nonnegative
count it is an arithmetic (flooring) right shift, `Int.shiftRight`. -/
def _ALU_SHR (ra rb : Int) (s : CPUState) : Exec :=
  match pyGet 8 s.reg ra, pyGet 8 s.reg rb with
  | some va, some vb =>
      if 0 ≤ vb then
        match pySet 8 s.reg ra (Int.shiftRight va vb.toNat) with
        | some reg' => .next { s with reg := reg' } []
        | none => .err []
      else .err []
  | _, _ => .err []

/-- cpu.py `_ALU_CMP`: `fl = 0b010` if `reg[ra] > reg[rb]`, `0b100`
if `<`, `0b001` if equal. -/
def _ALU_CMP (ra rb : Int) (s : CPUState) : Exec :=
  match pyGet 8 s.reg ra, pyGet 8 s.reg rb with
  | some va, some vb =>
      .next { s with fl := if va > vb then 2 else if va < vb then 4 else 1 } []
  | _, _ => .err []

/-!
Interrupt dispatch and the fetch/decode/execute machinery
(cpu.py `_handle_interrupts`, `_read_instruction`,
`_execute_instruction`, `_alu`, and the instruction tables).
-/

/-- Entry `k` of cpu.py `self.ivt = [0xF8, ..., 0xFF]`: `0xF8 + k`. -/
def ivt (k : Nat) : Int := 0xF8 + (k : Int)

/-- The loop header of cpu.py `_handle_interrupts`:
`for i in range(1, len(self.ivt) + 1)` with body guard
`i_bit = i & masked_interrupts; if i_bit:` — the first
`i ∈ {1, …, 8}` whose *value* (not bit mask) has a nonzero AND with
`masked`, if any. -/
def dispatchIndex (masked : Int) : Option Nat :=
  (List.range' 1 8).find? (fun i => decide (Int.land (i : Int) masked ≠ 0))

/-- Push a list of values in order with `_PUSH(r=None, value=v)`,
stopping at the first non-`next` outcome.  cpu.py `_handle_interrupts`
pushes `pc`, `fl`, `reg[0]`, …, `reg[6]` this way; since `_PUSH` only
writes `reg[7]` and `ram`, the pushed values can be collected up
front. -/
def pushValues (vs : List Int) (s : CPUState) : Exec :=
  match vs with
  | [] => .next s []
  | v :: rest =>
      match _PUSH none (some v) s with
      | .next s1 _ => pushValues rest s1
      | e => e

/-- cpu.py `_handle_interrupts`: compute
`masked = reg[5] & reg[6]`; scan `i = 1..8` for the first `i` with
`i & masked` nonzero; if found: disable interrupts, clear bit `i - 1`
of IS, push `pc`, `fl`, `reg[0]..reg[6]`, and set
`pc = ram[ivt[i - 1]]`. -/
def handle_interrupts (s : CPUState) : Exec :=
  let masked := Int.land (s.reg 5) (s.reg 6)
  match dispatchIndex masked with
  | none => .next s []
  | some i =>
      let s0 : CPUState :=
        { s with interrupts_enabled := false,
                 reg := Function.update s.reg 6 (unset_nth_bit (s.reg 6) (i - 1)) }
      match pushValues ([s.pc, s.fl] ++
          [s0.reg 0, s0.reg 1, s0.reg 2, s0.reg 3,
           s0.reg 4, s0.reg 5, s0.reg 6]) s0 with
      | .next s1 _ =>
          match pyGet 256 s1.ram (ivt (i - 1)) with
          | some v => .next { s1 with pc := v } []
          | none => .err []
      | e => e

/-- cpu.py `instructions` table: opcode → operation closure.  Each
closure reads its operand bytes `self._operand_a` / `self._operand_b`
(which may raise `IndexError`) and calls the instruction method. -/
def instrTable (op : Int) : Option (CPUState → Exec) :=
  if op = 0x00 then some _NOP
  else if op = 0x01 then some (fun s => .exited s 0 [])
  else if op = 0x48 then some (fun s =>
    match operandA s with | some a => _PRA a s | none => .err [])
  else if op = 0x49 then some (fun s =>
    match operandA s, operandB s with
    | some a, some b => _PRM a b s
    | _, _ => .err [])
  else if op = 0x47 then some (fun s =>
    match operandA s with | some a => _PRN a s | none => .err [])
  else if op = 0x83 then some (fun s =>
    match operandA s, operandB s with
    | some a, some b => _LD a b s
    | _, _ => .err [])
  else if op = 0x82 then some (fun s =>
    match operandA s, operandB s with
    | some a, some b => _LDI a b s
    | _, _ => .err [])
  else if op = 0x84 then some (fun s =>
    match operandA s, operandB s with
    | some a, some b => _ST a b s
    | _, _ => .err [])
  else if op = 0x45 then some (fun s =>
    match operandA s with | some a => _PUSH (some a) none s | none => .err [])
  else if op = 0x46 then some (fun s =>
    match operandA s with | some a => _POP a s | none => .err [])
  else if op = 0x50 then some (fun s =>
    match operandA s with | some a => _CALL a s | none => .err [])
  else if op = 0x11 then some _RET
  else if op = 0x52 then some (fun s =>
    match operandA s with | some a => _INT a s | none => .err [])
  else if op = 0x13 then some _IRET
  else if op = 0x54 then some (fun s =>
    match operandA s with | some a => _JMP a s | none => .err [])
  else if op = 0x58 then some (fun s =>
    match operandA s with | some a => _JLT a s | none => .err [])
  else if op = 0x57 then some (fun s =>
    match operandA s with | some a => _JGT a s | none => .err [])
  else if op = 0x55 then some (fun s =>
    match operandA s with | some a => _JEQ a s | none => .err [])
  else if op = 0x59 then some (fun s =>
    match operandA s with | some a => _JLE a s | none => .err [])
  else if op = 0x5A then some (fun s =>
    match operandA s with | some a => _JGE a s | none => .err [])
  else if op = 0x56 then some (fun s =>
    match operandA s with | some a => _JNE a s | none => .err [])
  else none

/-- cpu.py `alu_instructions` table. -/
def aluTable (op : Int) : Option (CPUState → Exec) :=
  if op = 0xA0 then some (fun s =>
    match operandA s, operandB s with
    | some a, some b => _ALU_ADD a b s
    | _, _ => .err [])
  else if op = 0xA6 then some (fun s =>
    match operandA s, operandB s with
    | some a, some b => _ALU_ADDi a b s
    | _, _ => .err [])
  else if op = 0xA1 then some (fun s =>
    match operandA s, operandB s with
    | some a, some b => _ALU_SUB a b s
    | _, _ => .err [])
  else if op = 0xA2 then some (fun s =>
    match operandA s, operandB s with
    | some a, some b => _ALU_MUL a b s
    | _, _ => .err [])
  else if op = 0xA3 then some (fun s =>
    match operandA s, operandB s with
    | some a, some b => _ALU_DIV a b s
    | _, _ => .err [])
  else if op = 0xA4 then some (fun s =>
    match operandA s, operandB s with
    | some a, some b => _ALU_MOD a b s
    | _, _ => .err [])
  else if op = 0x65 then some (fun s =>
    match operandA s with | some a => _ALU_INC a s | none => .err [])
  else if op = 0x66 then some (fun s =>
    match operandA s with | some a => _ALU_DEC a s | none => .err [])
  else if op = 0xAC then some (fun s =>
    match operandA s, operandB s with
    | some a, some b => _ALU_SHL a b s
    | _, _ => .err [])
  else if op = 0xAD then some (fun s =>
    match operandA s, operandB s with
    | some a, some b => _ALU_SHR a b s
    | _, _ => .err [])
  else if op = 0xA8 then some (fun s =>
    match operandA s, operandB s with
    | some a, some b => _ALU_AND a b s
    | _, _ => .err [])
  else if op = 0xAA then some (fun s =>
    match operandA s, operandB s with
    | some a, some b => _ALU_OR a b s
    | _, _ => .err [])
  else if op = 0xAB then some (fun s =>
    match operandA s, operandB s with
    | some a, some b => _ALU_XOR a b s
    | _, _ => .err [])
  else if op = 0x69 then some (fun s =>
    match operandA s with | some a => _ALU_NOT a s | none => .err [])
  else if op = 0xA7 then some (fun s =>
    match operandA s, operandB s with
    | some a, some b => _ALU_CMP a b s
    | _, _ => .err [])
  else none

/-- cpu.py `_alu op`: dispatch through `alu_instructions`; on an
unknown ALU opcode print "Unsupported ALU operation.", call `_trace()`
and `exit(1)`. -/
def alu (op : Int) (s : CPUState) : Exec :=
  match aluTable op with
  | some f => f s
  | none =>
      match traceLine s with
      | some ev => .exited s 1 [.text "Unsupported ALU operation.", ev]
      | none => .err [.text "Unsupported ALU operation."]

/-- cpu.py `_read_instruction`: `self.ir = self._ram_read(self.pc)`. -/
def read_instruction (s : CPUState) : Option CPUState :=
  match pyGet 256 s.ram s.pc with
  | some v => some { s with ir := v }
  | none => none

/-- cpu.py `_execute_instruction`: decode `operands`
(`(0b11000000 & ir) >> 6`), the ALU flag (`0b00100000 & ir`), dispatch
(unknown non-ALU opcode: print "Unknown instruction encountered.",
`_trace()`, `exit(1)`), then — if the `0b00010000` bit of `ir` is clear
— advance `pc` by `1 + operands`. -/
def execute_instruction (s : CPUState) : Exec :=
  let operands := Int.shiftRight (Int.land 192 s.ir) 6
  let is_alu_op := Int.land 32 s.ir ≠ 0
  let r : Exec :=
    if is_alu_op then alu s.ir s
    else
      match instrTable s.ir with
      | some f => f s
      | none =>
          match traceLine s with
          | some ev => .exited s 1 [.text "Unknown instruction encountered.", ev]
          | none => .err [.text "Unknown instruction encountered."]
  match r with
  | .next s1 out =>
      if Int.land 16 s1.ir ≠ 0 then .next s1 out
      else .next { s1 with pc := s1.pc + 1 + operands } out
  | e => e

/-- One fetch + execute step of cpu.py `run` (the
`_read_instruction(); _execute_instruction()` part of the loop body,
without the interrupt check, the optional trace, and the timer). -/
def cpu_step (s : CPUState) : Exec :=
  match read_instruction s with
  | some s1 => execute_instruction s1
  | none => .err []

/-- cpu.py `_handle_interrupts` followed by `_IRET` on the resulting
state — the "dispatch, then the handler immediately executes IRET"
situation of the interrupt-transparency law. -/
def afterDispatchIret (s : CPUState) : Option CPUState :=
  match handle_interrupts s with
  | .next s1 _ =>
      match _IRET s1 with
      | .next s2 _ => some s2
      | _ => none
  | _ => none

/-!
Evaluation aids.  `unset_nth_bit` goes through `Int.lnot`/`Nat.ldiff`,
which the kernel cannot reduce on numerals (`Nat.bitwise` is defined by
well-founded recursion), so concrete runs of the interrupt dispatcher
are evaluated through `handle_interruptsE`, a copy of
`handle_interrupts` whose bit-clearing is expressed with the
kernel-reducible `xor`/`and`; `handle_interrupts_eqE` proves the two
agree whenever IS is nonnegative.
-/

/-- `b` with bit `n` cleared, written with `xor`/`and`; agrees with
`unset_nth_bit b n` for `0 ≤ b` (`unset_nth_bit_eqE`). -/
def unset_nth_bitE (b : Int) (n : Nat) : Int :=
  Int.xor b (Int.land b ((2 : Int) ^ n))

/-- `handle_interrupts` with `unset_nth_bit` replaced by
`unset_nth_bitE`; see `handle_interrupts_eqE`. -/
def handle_interruptsE (s : CPUState) : Exec :=
  let masked := Int.land (s.reg 5) (s.reg 6)
  match dispatchIndex masked with
  | none => .next s []
  | some i =>
      let s0 : CPUState :=
        { s with interrupts_enabled := false,
                 reg := Function.update s.reg 6 (unset_nth_bitE (s.reg 6) (i - 1)) }
      match pushValues ([s.pc, s.fl] ++
          [s0.reg 0, s0.reg 1, s0.reg 2, s0.reg 3,
           s0.reg 4, s0.reg 5, s0.reg 6]) s0 with
      | .next s1 _ =>
          match pyGet 256 s1.ram (ivt (i - 1)) with
          | some v => .next { s1 with pc := v } []
          | none => .err []
      | e => e

/-- `afterDispatchIret` through `handle_interruptsE`. -/
def afterDispatchIretE (s : CPUState) : Option CPUState :=
  match handle_interruptsE s with
  | .next s1 _ =>
      match _IRET s1 with
      | .next s2 _ => some s2
      | _ => none
  | _ => none

/-!
Concrete machine states used to exercise the code on specific inputs.
-/

/-- A state with the given `pc`, `fl`, RAM and registers, `ir = 0`,
interrupts enabled — as after `__init__` plus the shown overrides. -/
def mkState (pc fl : Int) (ram reg : Int → Int) : CPUState :=
  { pc := pc, ir := 0, fl := fl, ram := ram, reg := reg,
    interrupts_enabled := true }

/-- All-zero memory. -/
def zeroMem : Int → Int := fun _ => 0

/-- IM = IS = 1 (interrupt 0 pending and unmasked), SP = 0xF4,
`reg[0] = 42`, `fl = 9`, `pc = 7`; `ram[0xF8] = 0x10` (IVT entry 0) and
`ram[0x10] = 0x13` (the handler is a single IRET). -/
def exC1 : CPUState := mkState 7 9
  (fun a => if a = 0xF8 then 0x10 else if a = 0x10 then 0x13 else 0)
  (fun r => if r = 0 then 42 else if r = 5 then 1 else if r = 6 then 1 else
            if r = 7 then 0xF4 else 0)

/-- IM = IS = 4 (only interrupt 2 pending and unmasked), SP = 0xF4;
`ram[0xFA] = 0x66` (IVT entry 2) and `ram[0xFB] = 0x77` (IVT entry 3). -/
def exC2 : CPUState := mkState 0 0
  (fun a => if a = 0xFB then 0x77 else if a = 0xFA then 0x66 else 0)
  (fun r => if r = 5 then 4 else if r = 6 then 4 else if r = 7 then 0xF4 else 0)

/-- `ram[0] = 0x69` (NOT R0), `ram[1] = 0`, all registers zero. -/
def exC3 : CPUState := mkState 0 0 (fun a => if a = 0 then 0x69 else 0) zeroMem

/-- `pc = 255` over all-zero RAM (`ram[255] = 0` is NOP). -/
def exC3b : CPUState := mkState 255 0 zeroMem zeroMem

/-- SP = 0, `reg[0] = 0x30`, for CALL at the bottom of the stack. -/
def exC4 : CPUState := mkState 0 0 zeroMem (fun r => if r = 0 then 0x30 else 0)

/-- SP = 0xFF, for RET at the top of the address space. -/
def exC4r : CPUState := mkState 0 0 zeroMem (fun r => if r = 7 then 255 else 0)

/-- `reg[0] = 3`, IS = 0, for INT R0. -/
def exC5 : CPUState := mkState 0 0 zeroMem (fun r => if r = 0 then 3 else 0)

/-- `reg[0] = 1`, `reg[1] = 0`, for DIV/MOD by zero. -/
def exC6 : CPUState := mkState 0 0 zeroMem (fun r => if r = 0 then 1 else 0)

/-- `pc = 255`, for the operand-fetch fault. -/
def exC7 : CPUState := mkState 255 0 zeroMem zeroMem

/-- `pc = 254`, for the second-operand / trace fault. -/
def exC7b : CPUState := mkState 254 0 zeroMem zeroMem

/-- `fl = 0b011` (E and G bits set), `reg[0] = 0x42`, `pc = 0x10`,
for JNE with the E bit set. -/
def exC9 : CPUState := mkState 0x10 3 zeroMem (fun r => if r = 0 then 0x42 else 0)

/-- `reg[0] = 5 > 3 = reg[1]`, for PRM over an empty range. -/
def exC10 : CPUState := mkState 0 0 zeroMem
  (fun r => if r = 0 then 5 else if r = 1 then 3 else 0)

/-- For SP in `[0,255]`, `_PUSH(value=v)` wraps SP to `(SP - 1) % 256` and
writes `v` there. -/
lemma PUSH_value_ok (s : CPUState) (v : Int) (h0 : 0 ≤ s.reg 7) (h1 : s.reg 7 < 256) :
    _PUSH none (some v) s =
      .next { s with reg := Function.update s.reg 7 ((s.reg 7 - 1) % 256),
                     ram := Function.update s.ram ((s.reg 7 - 1) % 256) v } [] := by
  have hw : (if s.reg 7 = 0 then (255 : Int) else s.reg 7 - 1) = (s.reg 7 - 1) % 256 := by
    split_ifs <;> omega
  have hm : ((s.reg 7 - 1) % 256) % 256 = (s.reg 7 - 1) % 256 := by omega
  unfold _PUSH pySet
  simp only [hw, hm]
  rw [if_pos ⟨by omega, by omega⟩]

/-- For SP in `[0,255]`, `_POP(ret=True)` returns `ram[SP]` and wraps SP to
`(SP + 1) % 256`. -/
lemma POP_ret_ok (s : CPUState) (h0 : 0 ≤ s.reg 7) (h1 : s.reg 7 < 256) :
    _POP_ret s = some (s.ram (s.reg 7),
      { s with reg := Function.update s.reg 7 ((s.reg 7 + 1) % 256) }) := by
  have hw : (if s.reg 7 = 255 then (0 : Int) else s.reg 7 + 1) = (s.reg 7 + 1) % 256 := by
    split_ifs <;> omega
  have hm : s.reg 7 % 256 = s.reg 7 := by omega
  unfold _POP_ret pyGet
  simp only [hw, hm]
  rw [if_pos ⟨by omega, by omega⟩]

/-- Effect of pushing a list of values (at most 256) with `_PUSH` from a
valid SP: only `reg[7]` and the cells written change, and cell
`(SP - (k+1)) % 256` holds the `k`-th pushed value. -/
lemma pushValues_spec (vs : List Int) (s : CPUState)
    (h0 : 0 ≤ s.reg 7) (h1 : s.reg 7 < 256) (hlen : vs.length ≤ 256) :
    ∃ t, pushValues vs s = .next t [] ∧
      t.pc = s.pc ∧ t.ir = s.ir ∧ t.fl = s.fl ∧
      t.interrupts_enabled = s.interrupts_enabled ∧
      t.reg = Function.update s.reg 7 ((s.reg 7 - (vs.length : Int)) % 256) ∧
      (∀ k : Nat, k < vs.length →
        t.ram ((s.reg 7 - ((k : Int) + 1)) % 256) = vs.getD k 0) ∧
      (∀ a : Int, (∀ k : Nat, k < vs.length → a ≠ (s.reg 7 - ((k : Int) + 1)) % 256) →
        t.ram a = s.ram a) := by
  induction vs generalizing s with
  | nil =>
      refine ⟨s, rfl, rfl, rfl, rfl, rfl, ?_, ?_, ?_⟩
      · have he : (s.reg 7 - ((List.length ([] : List Int) : Nat) : Int)) % 256 = s.reg 7 := by
          simp only [List.length_nil, Nat.cast_zero]
          omega
        rw [he, Function.update_eq_self]
      · intro k hk
        simp at hk
      · intro a _
        rfl
  | cons v rest ih =>
      rw [show pushValues (v :: rest) s =
            (match _PUSH none (some v) s with
             | .next s1 _ => pushValues rest s1
             | e => e) from rfl]
      rw [PUSH_value_ok s v h0 h1]
      have h0' : (0 : Int) ≤ (s.reg 7 - 1) % 256 := by omega
      have h1' : (s.reg 7 - 1) % 256 < 256 := by omega
      have hlen' : rest.length ≤ 256 := by
        simp only [List.length_cons] at hlen
        omega
      obtain ⟨t, ht, hpc, hir, hfl, hie, hreg, hram1, hram2⟩ :=
        ih { s with reg := Function.update s.reg 7 ((s.reg 7 - 1) % 256),
                    ram := Function.update s.ram ((s.reg 7 - 1) % 256) v }
          (by simpa using h0') (by simpa using h1') hlen'
      simp only [Function.update_same] at hreg hram1 hram2
      have hrl : rest.length ≤ 255 := by
        simp only [List.length_cons] at hlen
        omega
      refine ⟨t, ht, hpc, hir, hfl, hie, ?_, ?_, ?_⟩
      · rw [hreg, Function.update_idem]
        have : ((s.reg 7 - 1) % 256 - (rest.length : Int)) % 256 =
            (s.reg 7 - ((v :: rest).length : Int)) % 256 := by
          simp only [List.length_cons]
          push_cast
          omega
        rw [this]
      · intro k hk
        match k with
        | 0 =>
            rw [show (s.reg 7 - (((0 : Nat) : Int) + 1)) % 256 = (s.reg 7 - 1) % 256 by
              norm_num]
            have hfar : ∀ j : Nat, j < rest.length →
                (s.reg 7 - 1) % 256 ≠ ((s.reg 7 - 1) % 256 - ((j : Int) + 1)) % 256 := by
              intro j hj
              have hjb : (j : Int) + 1 ≤ 255 := by
                have := hrl
                omega
              omega
            rw [hram2 _ hfar, Function.update_same]
            rfl
        | k' + 1 =>
            have hcell : (s.reg 7 - (((k' + 1 : Nat) : Int) + 1)) % 256 =
                ((s.reg 7 - 1) % 256 - ((k' : Int) + 1)) % 256 := by
              push_cast
              omega
            rw [hcell, hram1 k' (by simpa using hk)]
            rfl
      · intro a ha
        have ha' : ∀ j : Nat, j < rest.length → a ≠ ((s.reg 7 - 1) % 256 - ((j : Int) + 1)) % 256 := by
          intro j hj
          have hj1 := ha (j + 1) (by simpa using Nat.succ_lt_succ hj)
          have hc : (s.reg 7 - (((j + 1 : Nat) : Int) + 1)) % 256 =
              ((s.reg 7 - 1) % 256 - ((j : Int) + 1)) % 256 := by
            push_cast
            omega
          rw [hc] at hj1
          exact hj1
        rw [hram2 a ha', Function.update_noteq]
        have h0a := ha 0 (by simp)
        rw [show (s.reg 7 - (((0 : Nat) : Int) + 1)) % 256 = (s.reg 7 - 1) % 256 by
          norm_num] at h0a
        exact h0a

/-- Effect of `_IRET` from a state whose SP is `B % 256`: the nine pops
read `ram[B % 256]` up to `ram[(B+8) % 256]` into `reg[6]` down to
`reg[0]`, then `fl`, then `pc`; SP ends at `(B + 9) % 256`, RAM is
untouched, and interrupts are re-enabled. -/
lemma IRET_spec (u : CPUState) (B : Int) (hsp : u.reg 7 = B % 256) :
    ∃ w, _IRET u = .next w [] ∧
      w.pc = u.ram ((B + 8) % 256) ∧
      w.fl = u.ram ((B + 7) % 256) ∧
      w.ram = u.ram ∧ w.ir = u.ir ∧
      w.interrupts_enabled = true ∧
      w.reg 7 = (B + 9) % 256 ∧
      (∀ k : Nat, k < 7 → w.reg ((k : Int)) = u.ram ((B + (6 - (k : Int))) % 256)) := by
  unfold _IRET
  rw [POP_ret_ok]
  simp only []
  rw [POP_ret_ok]
  simp only []
  rw [POP_ret_ok]
  simp only []
  rw [POP_ret_ok]
  simp only []
  rw [POP_ret_ok]
  simp only []
  rw [POP_ret_ok]
  simp only []
  rw [POP_ret_ok]
  simp only []
  rw [POP_ret_ok]
  simp only []
  rw [POP_ret_ok]
  simp only []
  all_goals try ((try simp [Function.update_apply]); omega)
  refine ⟨_, rfl, ?_, ?_, ?_, ?_, ?_, ?_, ?_⟩
  · simp [Function.update_apply] <;> first | omega | (congr 1 <;> omega)
  · simp [Function.update_apply] <;> first | omega | (congr 1 <;> omega)
  · rfl
  · rfl
  · rfl
  · simp [Function.update_apply] <;> omega
  · intro k hk
    interval_cases k <;> simp [Function.update_apply] <;>
      first | omega | (congr 1 <;> omega)

/-- Value of `Nat.ldiff m k` (clear in `m` the bits of `k`):
`m ^^^ (m &&& k)`, a form the kernel can evaluate on numerals. -/
lemma ldiff_eq_xor_land (m k : Nat) : Nat.ldiff m k = m ^^^ (m &&& k) := by
  apply Nat.eq_of_testBit_eq
  intro i
  rw [Nat.testBit_ldiff, Nat.testBit_xor, Nat.testBit_land]
  cases hm : m.testBit i <;> cases hk : k.testBit i <;> rfl

/-- On nonnegative integers, `unset_nth_bit` agrees with its
kernel-evaluable form `unset_nth_bitE`. -/
lemma unset_nth_bit_eqE (b : Int) (hb : 0 ≤ b) (n : Nat) :
    unset_nth_bit b n = unset_nth_bitE b n := by
  obtain ⟨m, rfl⟩ := Int.eq_ofNat_of_zero_le hb
  have h2 : ((2 : Int) ^ n) = ((2 ^ n : Nat) : Int) := by push_cast; ring
  show Int.land (Int.ofNat m) (Int.lnot (pyShl1 n)) = unset_nth_bitE (Int.ofNat m) n
  rw [show pyShl1 n = ((2 ^ n : Nat) : Int) from h2 ▸ rfl]
  show Int.ofNat (Nat.ldiff m (2 ^ n)) = unset_nth_bitE (Int.ofNat m) n
  rw [unset_nth_bitE, h2]
  show Int.ofNat (Nat.ldiff m (2 ^ n)) = Int.ofNat (m ^^^ (m &&& 2 ^ n))
  rw [ldiff_eq_xor_land]

/-- Dispatch agrees with its evaluation variant whenever IS is
nonnegative. -/
lemma handle_interrupts_eqE (s : CPUState) (h : 0 ≤ s.reg 6) :
    handle_interrupts s = handle_interruptsE s := by
  simp only [handle_interrupts, handle_interruptsE, unset_nth_bit_eqE _ h]

/-- Dispatch followed by IRET agrees with its evaluation variant whenever
IS is nonnegative. -/
lemma afterDispatchIret_eqE (s : CPUState) (h : 0 ≤ s.reg 6) :
    afterDispatchIret s = afterDispatchIretE s := by
  unfold afterDispatchIret afterDispatchIretE
  rw [handle_interrupts_eqE s h]

/-- C1 (amended): when the pre-fetch check dispatches (loop index `i`)
from a state with SP in `[0,255]`, dispatching and then executing `IRET`
restores `reg[0]` through `reg[5]`, SP, `fl` and `pc` to their
pre-dispatch values and re-enables interrupts; `reg[6]` (IS) ends as its
pre-dispatch value with bit `i - 1` cleared — the dispatcher clears that
bit before pushing `reg[6]`, so IS itself is not restored. -/
theorem C1_interrupt_transparency_amended (s : CPUState) (i : Nat)
    (h0 : 0 ≤ s.reg 7) (h1 : s.reg 7 < 256)
    (hd : dispatchIndex (Int.land (s.reg 5) (s.reg 6)) = some i) :
    ∃ s2, afterDispatchIret s = some s2 ∧
      (∀ r : Int, 0 ≤ r → r < 6 → s2.reg r = s.reg r) ∧
      s2.reg 6 = unset_nth_bit (s.reg 6) (i - 1) ∧
      s2.reg 7 = s.reg 7 ∧ s2.fl = s.fl ∧ s2.pc = s.pc ∧
      s2.interrupts_enabled = true := by
  have hmem := List.mem_of_find?_eq_some hd
  have hib : 1 ≤ i ∧ i < 9 := by
    rw [List.mem_range'] at hmem
    obtain ⟨j, hj, hij⟩ := hmem
    omega
  unfold afterDispatchIret
  unfold handle_interrupts
  simp only [hd]
  obtain ⟨t, ht, htpc, htir, htfl, htie, htreg, hram1, hram2⟩ :=
    pushValues_spec
      ([s.pc, s.fl] ++
        [Function.update s.reg 6 (unset_nth_bit (s.reg 6) (i - 1)) 0,
         Function.update s.reg 6 (unset_nth_bit (s.reg 6) (i - 1)) 1,
         Function.update s.reg 6 (unset_nth_bit (s.reg 6) (i - 1)) 2,
         Function.update s.reg 6 (unset_nth_bit (s.reg 6) (i - 1)) 3,
         Function.update s.reg 6 (unset_nth_bit (s.reg 6) (i - 1)) 4,
         Function.update s.reg 6 (unset_nth_bit (s.reg 6) (i - 1)) 5,
         Function.update s.reg 6 (unset_nth_bit (s.reg 6) (i - 1)) 6])
      { s with interrupts_enabled := false,
               reg := Function.update s.reg 6 (unset_nth_bit (s.reg 6) (i - 1)) }
      (by simp [Function.update_apply]; omega)
      (by simp [Function.update_apply]; omega)
      (by simp)
  simp only [ht]
  have htreg7 : t.reg 7 = (s.reg 7 - 9) % 256 := by
    rw [htreg]
    simp [Function.update_apply]
  have hivt : pyGet 256 t.ram (ivt (i - 1)) = some (t.ram (ivt (i - 1))) := by
    unfold pyGet ivt
    rw [if_pos ⟨by omega, by omega⟩]
    rw [show (248 + ((i - 1 : Nat) : Int)) % 256 = 248 + ((i - 1 : Nat) : Int) by omega]
  simp only [hivt]
  obtain ⟨w, hw, hwpc, hwfl, hwram, hwir, hwie, hwreg7, hwregk⟩ :=
    IRET_spec { t with pc := t.ram (ivt (i - 1)) } (s.reg 7 - 9) (by simpa using htreg7)
  simp only [hw]
  have hram1' : ∀ j : Nat, j < 9 →
      t.ram ((s.reg 7 - ((j : Int) + 1)) % 256) =
        ([s.pc, s.fl] ++
          [Function.update s.reg 6 (unset_nth_bit (s.reg 6) (i - 1)) 0,
           Function.update s.reg 6 (unset_nth_bit (s.reg 6) (i - 1)) 1,
           Function.update s.reg 6 (unset_nth_bit (s.reg 6) (i - 1)) 2,
           Function.update s.reg 6 (unset_nth_bit (s.reg 6) (i - 1)) 3,
           Function.update s.reg 6 (unset_nth_bit (s.reg 6) (i - 1)) 4,
           Function.update s.reg 6 (unset_nth_bit (s.reg 6) (i - 1)) 5,
           Function.update s.reg 6 (unset_nth_bit (s.reg 6) (i - 1)) 6]).getD j 0 := by
    intro j hj
    have h := hram1 j (by simpa using hj)
    simpa [Function.update_apply] using h
  simp only [] at hwpc hwfl hwram hwregk
  refine ⟨w, rfl, ?_, ?_, ?_, ?_, ?_, ?_⟩
  · intro r hr0 hr6
    lift r to Nat using hr0 with k hk
    have hk6 : k < 6 := by omega
    have hrk := hwregk k (by omega)
    rw [hrk]
    interval_cases k
    · rw [show (s.reg 7 - 9 + (6 - ((0 : Nat) : Int))) % 256 =
          (s.reg 7 - (((2 : Nat) : Int) + 1)) % 256 by push_cast; omega]
      rw [hram1' 2 (by norm_num)]
      simp [Function.update_apply]
    · rw [show (s.reg 7 - 9 + (6 - ((1 : Nat) : Int))) % 256 =
          (s.reg 7 - (((3 : Nat) : Int) + 1)) % 256 by push_cast; omega]
      rw [hram1' 3 (by norm_num)]
      simp [Function.update_apply]
    · rw [show (s.reg 7 - 9 + (6 - ((2 : Nat) : Int))) % 256 =
          (s.reg 7 - (((4 : Nat) : Int) + 1)) % 256 by push_cast; omega]
      rw [hram1' 4 (by norm_num)]
      simp [Function.update_apply]
    · rw [show (s.reg 7 - 9 + (6 - ((3 : Nat) : Int))) % 256 =
          (s.reg 7 - (((5 : Nat) : Int) + 1)) % 256 by push_cast; omega]
      rw [hram1' 5 (by norm_num)]
      simp [Function.update_apply]
    · rw [show (s.reg 7 - 9 + (6 - ((4 : Nat) : Int))) % 256 =
          (s.reg 7 - (((6 : Nat) : Int) + 1)) % 256 by push_cast; omega]
      rw [hram1' 6 (by norm_num)]
      simp [Function.update_apply]
    · rw [show (s.reg 7 - 9 + (6 - ((5 : Nat) : Int))) % 256 =
          (s.reg 7 - (((7 : Nat) : Int) + 1)) % 256 by push_cast; omega]
      rw [hram1' 7 (by norm_num)]
      simp [Function.update_apply]
  · have hrk := hwregk 6 (by norm_num)
    rw [show ((6 : Nat) : Int) = (6 : Int) by norm_num] at hrk
    rw [hrk]
    rw [show (s.reg 7 - 9 + (6 - (6 : Int))) % 256 =
        (s.reg 7 - (((8 : Nat) : Int) + 1)) % 256 by push_cast; omega]
    rw [hram1' 8 (by norm_num)]
    simp [Function.update_apply]
  · rw [hwreg7]
    omega
  · rw [hwfl]
    rw [show (s.reg 7 - 9 + 7) % 256 = (s.reg 7 - (((1 : Nat) : Int) + 1)) % 256 by
      push_cast; omega]
    rw [hram1' 1 (by norm_num)]
    rfl
  · rw [hwpc]
    rw [show (s.reg 7 - 9 + 8) % 256 = (s.reg 7 - (((0 : Nat) : Int) + 1)) % 256 by
      push_cast; omega]
    rw [hram1' 0 (by norm_num)]
    rfl
  · exact hwie

/-- C4 (amended): from SP in `[0,255]`, `_PUSH` (the value form used by the
dispatcher and the register form used by the PUSH instruction) wraps SP
to `(SP - 1) % 256`, and `_POP` (the register form and the ret form used
by IRET) wraps SP to `(SP + 1) % 256`, keeping SP in `[0,255]`; but
`_CALL` sets SP to `SP - 1` and `_RET` to `SP + 1` with no wrap, so CALL
at SP = 0 leaves SP = -1 and RET at SP = 255 leaves SP = 256. -/
theorem C4_sp_wrap_amended (s : CPUState) (v : Int) (h0 : 0 ≤ s.reg 7) (h1 : s.reg 7 < 256) :
    (∃ t, _PUSH none (some v) s = .next t [] ∧
        t.reg 7 = (s.reg 7 - 1) % 256 ∧ 0 ≤ t.reg 7 ∧ t.reg 7 < 256) ∧
    (∀ r : Int, 0 ≤ r → r < 8 →
      ∃ t, _PUSH (some r) none s = .next t [] ∧
        t.reg 7 = (s.reg 7 - 1) % 256 ∧ 0 ≤ t.reg 7 ∧ t.reg 7 < 256) ∧
    (∀ r : Int, 0 ≤ r → r < 7 →
      ∃ t, _POP r s = .next t [] ∧
        t.reg 7 = (s.reg 7 + 1) % 256 ∧ 0 ≤ t.reg 7 ∧ t.reg 7 < 256) ∧
    (∃ vl t, _POP_ret s = some (vl, t) ∧
        t.reg 7 = (s.reg 7 + 1) % 256 ∧ 0 ≤ t.reg 7 ∧ t.reg 7 < 256) ∧
    (∀ r : Int, 0 ≤ r → r < 8 →
      ∃ t, _CALL r s = .next t [] ∧ t.reg 7 = s.reg 7 - 1) ∧
    (∃ t, _RET s = .next t [] ∧ t.reg 7 = s.reg 7 + 1) := by
  refine ⟨?_, ?_, ?_, ?_, ?_, ?_⟩
  · refine ⟨_, PUSH_value_ok s v h0 h1, ?_, ?_, ?_⟩ <;>
      simp [Function.update_apply] <;> omega
  · intro r hr0 hr8
    have hw : (if s.reg 7 = 0 then (255 : Int) else s.reg 7 - 1) =
        (s.reg 7 - 1) % 256 := by
      split_ifs <;> omega
    have g1 : -8 ≤ r ∧ r < 8 := ⟨by omega, hr8⟩
    have g2 : -256 ≤ (s.reg 7 - 1) % 256 ∧ (s.reg 7 - 1) % 256 < 256 :=
      ⟨by omega, by omega⟩
    have g3 : ((s.reg 7 - 1) % 256) % 256 = (s.reg 7 - 1) % 256 := by omega
    unfold _PUSH pyGet pySet
    simp only [hw, g3, g1, g2, if_true]
    refine ⟨_, rfl, ?_, ?_, ?_⟩ <;>
      simp [Function.update_apply] <;> omega
  · intro r hr0 hr7
    have g1 : -8 ≤ r ∧ r < 8 := ⟨by omega, by omega⟩
    have hr7' : ¬ (7 : Int) = r % 8 := by omega
    unfold _POP pySet
    rw [POP_ret_ok s h0 h1]
    simp only [g1, if_true]
    refine ⟨_, rfl, ?_, ?_, ?_⟩ <;>
      simp [Function.update_apply, hr7'] <;> omega
  · refine ⟨_, _, POP_ret_ok s h0 h1, ?_, ?_, ?_⟩ <;>
      simp [Function.update_apply] <;> omega
  · intro r hr0 hr8
    have g1 : -8 ≤ r ∧ r < 8 := ⟨by omega, hr8⟩
    have g2 : -256 ≤ s.reg 7 - 1 ∧ s.reg 7 - 1 < 256 := ⟨by omega, by omega⟩
    unfold _CALL pyGet pySet
    simp only [Function.update_same, g1, g2, if_true]
    refine ⟨_, rfl, ?_⟩
    simp [Function.update_apply]
  · have g1 : -256 ≤ s.reg 7 ∧ s.reg 7 < 256 := ⟨by omega, h1⟩
    unfold _RET pyGet
    simp only [g1, if_true]
    refine ⟨_, rfl, ?_⟩
    simp [Function.update_apply]

/-- C6 (amended): `DIV ra,rb` and `MOD ra,rb` with `reg[rb] = 0` print the
diagnostic "Cannot divide by 0!" and exit the host process with status 0
— not nonzero — and without a trace line, leaving the whole machine
state (in particular `reg[ra]`) unchanged. -/
theorem C6_div_zero_amended (s : CPUState) (ra rb : Int) (hb : pyGet 8 s.reg rb = some 0) :
    _ALU_DIV ra rb s = .exited s 0 [.text "Cannot divide by 0!"] ∧
    _ALU_MOD ra rb s = .exited s 0 [.text "Cannot divide by 0!"] := by
  constructor
  · unfold _ALU_DIV
    rw [hb]
    rfl
  · unfold _ALU_MOD
    rw [hb]
    rfl

/-- C7 (amended): operand fetch and the trace reads are plain list
indexing with no mod-256 reduction: for `pc + 2 ≤ 255` all reads
succeed; at `pc = 254` the first operand is `ram[255]` but the second
operand read and the trace fault; at `pc = 255` both operand reads and
the trace fault. -/
theorem C7_operand_bounds_amended (s : CPUState) (h0 : 0 ≤ s.pc) :
    (s.pc + 2 ≤ 255 →
      operandA s = some (s.ram (s.pc + 1)) ∧
      operandB s = some (s.ram (s.pc + 2)) ∧
      traceLine s = some .trace) ∧
    (s.pc = 254 →
      operandA s = some (s.ram 255) ∧ operandB s = none ∧ traceLine s = none) ∧
    (s.pc = 255 →
      operandA s = none ∧ operandB s = none ∧ traceLine s = none) := by
  refine ⟨?_, ?_, ?_⟩
  · intro hle
    have ha : operandA s = some (s.ram (s.pc + 1)) := by
      unfold operandA pyGet
      rw [if_pos ⟨by omega, by omega⟩,
        show (s.pc + 1) % 256 = s.pc + 1 by omega]
    have hb : operandB s = some (s.ram (s.pc + 2)) := by
      unfold operandB pyGet
      rw [if_pos ⟨by omega, by omega⟩,
        show (s.pc + 2) % 256 = s.pc + 2 by omega]
    refine ⟨ha, hb, ?_⟩
    unfold traceLine
    unfold operandA at ha
    unfold operandB at hb
    rw [ha, hb]
    rw [show pyGet 256 s.ram s.pc = some (s.ram s.pc) by
      unfold pyGet
      rw [if_pos ⟨by omega, by omega⟩, show s.pc % 256 = s.pc by omega]]
  · intro h254
    have ha : operandA s = some (s.ram 255) := by
      unfold operandA pyGet
      rw [if_pos ⟨by omega, by omega⟩,
        show (s.pc + 1) % 256 = 255 by omega]
    have hb : operandB s = none := by
      unfold operandB pyGet
      rw [if_neg (by omega)]
    refine ⟨ha, hb, ?_⟩
    unfold traceLine
    unfold operandA at ha
    unfold operandB at hb
    rw [ha, hb]
    rw [show pyGet 256 s.ram s.pc = some (s.ram s.pc) by
      unfold pyGet
      rw [if_pos ⟨by omega, by omega⟩, show s.pc % 256 = s.pc by omega]]
  · intro h255
    have ha : operandA s = none := by
      unfold operandA pyGet
      rw [if_neg (by omega)]
    have hb : operandB s = none := by
      unfold operandB pyGet
      rw [if_neg (by omega)]
    refine ⟨ha, hb, ?_⟩
    unfold traceLine
    unfold operandA at ha
    unfold operandB at hb
    rw [ha, hb]
    rw [show pyGet 256 s.ram s.pc = some (s.ram s.pc) by
      unfold pyGet
      rw [if_pos ⟨by omega, by omega⟩, show s.pc % 256 = s.pc by omega]]

/-- C8: `CMP ra,rb` sets `fl` to exactly 2 (`0b010`) if
`reg[ra] > reg[rb]`, exactly 4 (`0b100`) if `<`, and exactly 1 (`0b001`)
if equal; the resulting flag byte is always one of 1, 2, 4, so exactly
one of L, G, E is set and all other bits are zero. -/
theorem C8_cmp_flags (s : CPUState) (ra rb va vb : Int)
    (ha : pyGet 8 s.reg ra = some va) (hb : pyGet 8 s.reg rb = some vb) :
    ∃ f, _ALU_CMP ra rb s = .next { s with fl := f } [] ∧
      (vb < va → f = 2) ∧ (va < vb → f = 4) ∧ (va = vb → f = 1) ∧
      (f = 1 ∨ f = 2 ∨ f = 4) := by
  refine ⟨if va > vb then 2 else if va < vb then 4 else 1, ?_, ?_, ?_, ?_, ?_⟩
  · unfold _ALU_CMP
    rw [ha, hb]
  · intro h
    rw [if_pos h]
  · intro h
    rw [if_neg (by omega), if_pos h]
  · intro h
    rw [if_neg (by omega), if_neg (by omega)]
  · split_ifs <;> simp

/-- C10: `PRM ra,rb` with `reg[ra] > reg[rb]` iterates over an empty
range, printing just the empty string (one bare newline) and leaving the
entire machine state — RAM, registers, `fl`, SP — unchanged. -/
theorem C10_prm_empty_range (s : CPUState) (ra rb va vb : Int)
    (ha : pyGet 8 s.reg ra = some va) (hb : pyGet 8 s.reg rb = some vb)
    (hgt : vb < va) :
    _PRM ra rb s = .next s [.chars []] := by
  have hr : pyRange va (vb + 1) = [] := by
    unfold pyRange
    rw [show (vb + 1 - va).toNat = 0 by omega]
    rfl
  unfold _PRM
  simp only [ha, hb, hr]
  rfl

/-- C1 (counterexample): with IM = IS = 1, SP = 0xF4 and a handler that is
a single IRET at the dispatched vector, dispatch followed by IRET leaves
`reg[6] = 0` although it was 1 before dispatch — IS is not restored to
its pre-dispatch value, refuting the claim as stated. -/
theorem C1_iret_reg6_counterexample :
    dispatchIndex (Int.land (exC1.reg 5) (exC1.reg 6)) = some 1 ∧
    (stateOf (handle_interrupts exC1)).map (fun t => t.ram t.pc) = some 0x13 ∧
    (afterDispatchIret exC1).map (fun t => t.reg 6) = some 0 ∧
    exC1.reg 6 = 1 := by
  refine ⟨by decide, ?_, ?_, by decide⟩
  · rw [handle_interrupts_eqE exC1 (by decide)]
    decide
  · rw [afterDispatchIret_eqE exC1 (by decide)]
    decide

/-- C2 (code evaluation): with IM = IS = 4 — only interrupt 2 pending —
the `i & masked` scan of `_handle_interrupts` fires at loop value
`i = 4`, clears bit 3 (leaving IS = 4, interrupt 2 still pending) and
loads `pc` from `ram[0xFB]` = IVT[3], instead of servicing bit 2 through
IVT[2] (`ram[0xFA]`) as the claim and spec section 4.4 state. -/
theorem C2_dispatch_scan_code_eval :
    (stateOf (handle_interrupts exC2)).map
        (fun t => (t.pc, t.reg 6, t.interrupts_enabled)) =
      some (0x77, 4, false) ∧
    Int.land (exC2.reg 5) (exC2.reg 6) = 4 := by
  refine ⟨?_, by decide⟩
  rw [handle_interrupts_eqE exC2 (by decide)]
  decide

/-- C3 (code evaluation): executing `NOT R0` (opcode 0x69) with
`reg[0] = 0` stores `~0 = -1`, outside `[0, 255]` — `_ALU_NOT` does not
mask to 8 bits; and a NOP at `pc = 255` advances `pc` to 256, also
outside `[0, 255]`. -/
theorem C3_not_unmasked_code_eval :
    regAfter (cpu_step exC3) 0 = some (-1) ∧
    pcAfter (cpu_step exC3b) = some 256 := by decide

/-- C4 (counterexample): CALL executed at SP = 0x00 leaves SP = -1 and RET
executed at SP = 0xFF leaves SP = 0x100, refuting the claim that every
push/pop of a user instruction keeps SP in `[0, 255]`. -/
theorem C4_call_ret_nowrap_counterexample :
    exC4.reg 7 = 0 ∧ regAfter (_CALL 0 exC4) 7 = some (-1) ∧
    exC4r.reg 7 = 255 ∧ regAfter (_RET exC4r) 7 = some 256 := by decide

/-- C5 (code evaluation): `INT R0` with `reg[0] = 3` and IS = 0 sets IS to
`reg[0] | 0b10 = 3` (the source sets bit 1 of `reg[r]` and stores that
into IS) instead of the documented `IS | (1 << reg[0]) = 8`. -/
theorem C5_int_code_eval :
    exC5.reg 0 = 3 ∧ exC5.reg 6 = 0 ∧ regAfter (_INT 0 exC5) 6 = some 3 := by decide

/-- C6 (counterexample): `DIV R0,R1` with `reg[1] = 0` exits the host
process with status 0 (not nonzero) and its only output is the
diagnostic line — no trace line is dumped — though `reg[0]` is indeed
left unchanged. -/
theorem C6_div_zero_counterexample :
    exitCodeOf (_ALU_DIV 0 1 exC6) = some 0 ∧
    outOf (_ALU_DIV 0 1 exC6) = [.text "Cannot divide by 0!"] ∧
    regAfter (_ALU_DIV 0 1 exC6) 0 = some 1 := by decide

/-- C7 (counterexample): at `pc = 255` the first operand read `ram[pc+1]`
raises IndexError (returns `none`), and at `pc = 254` the second operand
read and the trace fault — operand address arithmetic is not reduced mod
256. -/
theorem C7_operand_fault_counterexample :
    exC7.pc = 255 ∧ operandA exC7 = none ∧
    exC7b.pc = 254 ∧ operandA exC7b = some 0 ∧ operandB exC7b = none ∧
    traceLine exC7b = none := by decide

/-- C9 (code evaluation): with `fl = 0b011` — E bit set — `JNE R0` jumps
to `reg[0] = 0x42` because the code tests `fl ^ 0b1` nonzero (true
whenever `fl` is not 1) rather than testing that the E bit is clear as
its own docstring and the spec state. -/
theorem C9_jne_code_eval :
    Int.land exC9.fl 1 = 1 ∧ pcAfter (_JNE 0 exC9) = some 0x42 := by decide

/-- C1 witness: the amended interrupt-transparency theorem instantiated
at the concrete state `exC1`, where the dispatcher fires at `i = 1`. -/
theorem C1_interrupt_transparency_amended_witness :
    0 ≤ exC1.reg 7 ∧ exC1.reg 7 < 256 ∧
    dispatchIndex (Int.land (exC1.reg 5) (exC1.reg 6)) = some 1 ∧
    (∃ s2, afterDispatchIret exC1 = some s2 ∧
      (∀ r : Int, 0 ≤ r → r < 6 → s2.reg r = exC1.reg r) ∧
      s2.reg 6 = unset_nth_bit (exC1.reg 6) (1 - 1) ∧
      s2.reg 7 = exC1.reg 7 ∧ s2.fl = exC1.fl ∧ s2.pc = exC1.pc ∧
      s2.interrupts_enabled = true) :=
  ⟨by decide, by decide, by decide,
    C1_interrupt_transparency_amended exC1 1 (by decide) (by decide) (by decide)⟩

/-- C4 witness: the amended SP-wrap theorem instantiated at `exC1`
(SP = 0xF4) with pushed value 5. -/
theorem C4_sp_wrap_amended_witness :
    0 ≤ exC1.reg 7 ∧ exC1.reg 7 < 256 ∧
    ((∃ t, _PUSH none (some 5) exC1 = .next t [] ∧
        t.reg 7 = (exC1.reg 7 - 1) % 256 ∧ 0 ≤ t.reg 7 ∧ t.reg 7 < 256) ∧
     (∀ r : Int, 0 ≤ r → r < 8 →
       ∃ t, _PUSH (some r) none exC1 = .next t [] ∧
         t.reg 7 = (exC1.reg 7 - 1) % 256 ∧ 0 ≤ t.reg 7 ∧ t.reg 7 < 256) ∧
     (∀ r : Int, 0 ≤ r → r < 7 →
       ∃ t, _POP r exC1 = .next t [] ∧
         t.reg 7 = (exC1.reg 7 + 1) % 256 ∧ 0 ≤ t.reg 7 ∧ t.reg 7 < 256) ∧
     (∃ vl t, _POP_ret exC1 = some (vl, t) ∧
         t.reg 7 = (exC1.reg 7 + 1) % 256 ∧ 0 ≤ t.reg 7 ∧ t.reg 7 < 256) ∧
     (∀ r : Int, 0 ≤ r → r < 8 →
       ∃ t, _CALL r exC1 = .next t [] ∧ t.reg 7 = exC1.reg 7 - 1) ∧
     (∃ t, _RET exC1 = .next t [] ∧ t.reg 7 = exC1.reg 7 + 1)) :=
  ⟨by decide, by decide, C4_sp_wrap_amended exC1 5 (by decide) (by decide)⟩

/-- C6 witness: the amended division-by-zero theorem instantiated at the
concrete state `exC6` with `DIV R0,R1`, `reg[1] = 0`. -/
theorem C6_div_zero_amended_witness :
    pyGet 8 exC6.reg 1 = some 0 ∧
    (_ALU_DIV 0 1 exC6 = .exited exC6 0 [.text "Cannot divide by 0!"] ∧
     _ALU_MOD 0 1 exC6 = .exited exC6 0 [.text "Cannot divide by 0!"]) :=
  ⟨by decide, C6_div_zero_amended exC6 0 1 (by decide)⟩

/-- C7 witness: the amended operand-bounds theorem instantiated at the
concrete state `exC6` (whose `pc` is 0). -/
theorem C7_operand_bounds_amended_witness :
    0 ≤ exC6.pc ∧
    ((exC6.pc + 2 ≤ 255 →
       operandA exC6 = some (exC6.ram (exC6.pc + 1)) ∧
       operandB exC6 = some (exC6.ram (exC6.pc + 2)) ∧
       traceLine exC6 = some .trace) ∧
     (exC6.pc = 254 →
       operandA exC6 = some (exC6.ram 255) ∧ operandB exC6 = none ∧
       traceLine exC6 = none) ∧
     (exC6.pc = 255 →
       operandA exC6 = none ∧ operandB exC6 = none ∧ traceLine exC6 = none)) :=
  ⟨by decide, C7_operand_bounds_amended exC6 (by decide)⟩

/-- C8 witness: the CMP theorem instantiated at the concrete state
`exC10` (`reg[0] = 5`, `reg[1] = 3`). -/
theorem C8_cmp_flags_witness :
    pyGet 8 exC10.reg 0 = some 5 ∧ pyGet 8 exC10.reg 1 = some 3 ∧
    (∃ f, _ALU_CMP 0 1 exC10 = .next { exC10 with fl := f } [] ∧
      ((3 : Int) < 5 → f = 2) ∧ ((5 : Int) < 3 → f = 4) ∧
      ((5 : Int) = 3 → f = 1) ∧ (f = 1 ∨ f = 2 ∨ f = 4)) :=
  ⟨by decide, by decide, C8_cmp_flags exC10 0 1 5 3 (by decide) (by decide)⟩

/-- C10 witness: the empty-range PRM theorem instantiated at the
concrete state `exC10` (`reg[0] = 5 > 3 = reg[1]`). -/
theorem C10_prm_empty_range_witness :
    pyGet 8 exC10.reg 0 = some 5 ∧ pyGet 8 exC10.reg 1 = some 3 ∧ (3 : Int) < 5 ∧
    _PRM 0 1 exC10 = .next exC10 [.chars []] :=
  ⟨by decide, by decide, by decide,
    C10_prm_empty_range exC10 0 1 5 3 (by decide) (by decide) (by decide)⟩

end LS8
